import Mathlib

/-!
# Verification of the LMS library-synchronization and schema-migration core

Shallow embedding of the two source units under scrutiny:

* `src/database/Database.cpp` — scan path: `Database::processAudioFile`,
  `Database::removeMissingAudioFiles` (change detection, metadata-driven
  entity resolution, orphan reconciliation);
* `src/src/libs/services/database/impl/Migration.cpp` —
  `Database::Migration::doDbMigration` (version-dispatched, transactional
  schema migration loop).

Machine integers of the C++ are modelled as `Nat` (no overflow is relevant to
any statement below); `boost::posix_time::ptime` values are modelled as `Nat`
seconds; checksums (`std::vector<unsigned char>`) as `List Nat`.  The Wt::Dbo
store is modelled as explicit list-backed tables threaded through each
operation; a committed transaction is the returned store, a rolled-back one is
the unchanged input store.
-/

namespace LmsScan

/-- One `Artist` row: surrogate id and name (`Artist::getByName` keys on the
name). -/
structure ArtistRow where
  id : Nat
  name : String
deriving DecidableEq, Repr

/-- One `Release` row. -/
structure ReleaseRow where
  id : Nat
  name : String
deriving DecidableEq, Repr

/-- One `Genre` row. -/
structure GenreRow where
  id : Nat
  name : String
deriving DecidableEq, Repr

/-- One `Track` row, with the fields `Database::processAudioFile` reads and
writes: unique file path, last-write timestamp, content checksum, title
(`setName`), the genre text list and genre references (the two `setGenres`
overloads), artist and release references, track/disc numbers, duration and
creation time.  Fields the constructor leaves unset are modelled as `0` /
empty. -/
structure TrackRow where
  path : String
  artistId : Nat
  releaseId : Nat
  checksum : List Nat
  lastWriteTime : Nat
  name : String
  genreText : String
  genreIds : List Nat
  trackNumber : Nat
  discNumber : Nat
  duration : Nat
  creationTime : Nat
deriving DecidableEq, Repr

/-- The entity store reachable from `processAudioFile` /
`removeMissingAudioFiles`: the Track, Artist, Release and Genre tables, plus
the surrogate-id allocator shared by the `create` calls. -/
structure Store where
  tracks : List TrackRow
  artists : List ArtistRow
  releases : List ReleaseRow
  genres : List GenreRow
  nextId : Nat
deriving DecidableEq, Repr

/-- The empty store. -/
def emptyStore : Store :=
  { tracks := [], artists := [], releases := [], genres := [], nextId := 0 }

/-- Source `Track::getByPath`: lookup of the (unique) Track row for a file path. -/
def getTrackByPath (s : Store) (p : String) : Option TrackRow :=
  s.tracks.find? (fun t => t.path == p)

/-- Source `Artist::getByName`. -/
def getArtistByName (s : Store) (nm : String) : Option ArtistRow :=
  s.artists.find? (fun a => a.name == nm)

/-- Source `Artist::create`: inserts a fresh row and returns its id. -/
def createArtist (s : Store) (nm : String) : Store × Nat :=
  ({ s with artists := s.artists ++ [{ id := s.nextId, name := nm }],
            nextId := s.nextId + 1 }, s.nextId)

/-- Source `Release::getByName`. -/
def getReleaseByName (s : Store) (nm : String) : Option ReleaseRow :=
  s.releases.find? (fun r => r.name == nm)

/-- Source `Release::create`. -/
def createRelease (s : Store) (nm : String) : Store × Nat :=
  ({ s with releases := s.releases ++ [{ id := s.nextId, name := nm }],
            nextId := s.nextId + 1 }, s.nextId)

/-- Source `Genre::getByName`. -/
def getGenreByName (s : Store) (nm : String) : Option GenreRow :=
  s.genres.find? (fun g => g.name == nm)

/-- Source `Genre::create`. -/
def createGenre (s : Store) (nm : String) : Store × Nat :=
  ({ s with genres := s.genres ++ [{ id := s.nextId, name := nm }],
            nextId := s.nextId + 1 }, s.nextId)

/-- Modelled from the spec: `Artist::getNone` (its definition is outside the
given sources).  Per §3/§4.5 of the spec it returns the shared sentinel
"unspecified" Artist; we model the sentinel as the row whose name is the empty
string, created on first use. -/
def artistGetNone (s : Store) : Store × Nat :=
  match getArtistByName s "" with
  | some a => (s, a.id)
  | none => createArtist s ""

/-- Modelled from the spec: `Release::getNone`, the sentinel Release
(definition outside the given sources), analogous to `artistGetNone`. -/
def releaseGetNone (s : Store) : Store × Nat :=
  match getReleaseByName s "" with
  | some r => (s, r.id)
  | none => createRelease s ""

/-- Modelled from the spec: `Genre::getNone`, the sentinel Genre (definition
outside the given sources). -/
def genreGetNone (s : Store) : Store × Nat :=
  match getGenreByName s "" with
  | some g => (s, g.id)
  | none => createGenre s ""

/-- The typed metadata items `MetaData::Parser::parse` can deliver for a file
(`MetaData::Items`): each key is present or absent. -/
structure MetaDataItems where
  title : Option String
  artist : Option String
  album : Option String
  genres : Option (List String)
  trackNumber : Option Nat
  discNumber : Option Nat
  duration : Option Nat
  creationTime : Option Nat
deriving DecidableEq, Repr

/-- Everything `processAudioFile` observes about one file through its external
collaborators: the path and its filename component, `last_write_time`, the
`computeCrc` digest, the parsed metadata items, and the
`Transcode::InputMediaFile` probe results (number of audio elementary streams,
total duration in seconds). -/
structure AudioFileInfo where
  path : String
  filename : String
  lastWriteTime : Nat
  checksum : List Nat
  items : MetaDataItems
  audioStreamCount : Nat
  durationTotalSeconds : Nat
deriving DecidableEq, Repr

/-- Source `track.remove()`: deletes the Track row for a path. -/
def removeTrack (s : Store) (p : String) : Store :=
  { s with tracks := s.tracks.filter (fun t => !(t.path == p)) }

/-- In-place update of the Track row for a path (the `track.modify()->set...`
sequence on a persisted row, committed). -/
def updateTrack (s : Store) (p : String) (u : TrackRow) : Store :=
  { s with tracks := s.tracks.map (fun t => if t.path == p then u else t) }

/-- Lines 123–133 of `Database.cpp`: artist resolution.  When the Artist tag
is present, `getByName` then `create` if absent; when absent, the sentinel. -/
def resolveArtist (s : Store) (items : MetaDataItems) : Store × Nat :=
  match items.artist with
  | some artistName =>
    match getArtistByName s artistName with
    | some a => (s, a.id)
    | none => createArtist s artistName
  | none => artistGetNone s

/-- Lines 138–148: release resolution, same shape as the artist. -/
def resolveRelease (s : Store) (items : MetaDataItems) : Store × Nat :=
  match items.album with
  | some albumName =>
    match getReleaseByName s albumName with
    | some r => (s, r.id)
    | none => createRelease s albumName
  | none => releaseGetNone s

/-- One iteration of the genre loop (lines 161–167): get-or-create by name,
appending the id. -/
def genreStep (acc : Store × List Nat) (g : String) : Store × List Nat :=
  match getGenreByName acc.1 g with
  | some dg => (acc.1, acc.2 ++ [dg.id])
  | none =>
    let c := createGenre acc.1 g
    (c.1, acc.2 ++ [c.2])

/-- Lines 153–172: genre resolution.  The tag (a list of names) defaults to
the empty list; each name is get-or-created; if the resulting list is empty
the sentinel genre is used. -/
def resolveGenres (s : Store) (items : MetaDataItems) : Store × List Nat :=
  let genreList := items.genres.getD []
  let r := genreList.foldl genreStep (s, [])
  if r.2.isEmpty then
    let c := genreGetNone r.1
    (c.1, [c.2])
  else r

/-- The genre text written by the `setGenres(std::string)` call: the tag names
joined by `", "` (lines 193–204). -/
def genreTextOf (items : MetaDataItems) : String :=
  String.intercalate ", " (items.genres.getD [])

/-- The Track row built on the `Track::create` path (lines 176–219 with
`track` null): path/artist/release from `create`, then every setter the
present items trigger; absent items leave the constructor defaults (modelled
as `0`). -/
def mkNewTrack (f : AudioFileInfo) (artistId releaseId : Nat)
    (genreIds : List Nat) : TrackRow :=
  { path := f.path
    artistId := artistId
    releaseId := releaseId
    checksum := f.checksum
    lastWriteTime := f.lastWriteTime
    name := f.items.title.getD f.filename
    genreText := genreTextOf f.items
    genreIds := genreIds
    trackNumber := f.items.trackNumber.getD 0
    discNumber := f.items.discNumber.getD 0
    duration := f.items.duration.getD 0
    creationTime := f.items.creationTime.getD 0 }

/-- The Track row produced on the update path (lines 182–219 with `track`
non-null and still persisted): checksum, timestamp, title, genres, artist and
release are overwritten unconditionally; track number, disc number, duration
and creation time only when the corresponding item is present, otherwise the
old value is retained (the setters are guarded by `items.find(...)`). -/
def mkUpdatedTrack (f : AudioFileInfo) (old : TrackRow)
    (artistId releaseId : Nat) (genreIds : List Nat) : TrackRow :=
  { old with
    checksum := f.checksum
    lastWriteTime := f.lastWriteTime
    name := f.items.title.getD f.filename
    genreText := genreTextOf f.items
    genreIds := genreIds
    artistId := artistId
    releaseId := releaseId
    trackNumber := f.items.trackNumber.getD old.trackNumber
    discNumber := f.items.discNumber.getD old.discNumber
    duration := f.items.duration.getD old.duration
    creationTime := f.items.creationTime.getD old.creationTime }

/-- What one `processAudioFile` call did: the store as committed, whether the
content checksum was computed (`computeCrc`, line 74), and whether the
metadata parse ran (`_metadataParser.parse`, line 85). -/
structure ProcessOutcome where
  store : Store
  computedChecksum : Bool
  parsed : Bool
deriving Repr

/-- The change-detection predicate implicit in lines 64–80: the file is
skipped (no parse, no write) iff a Track row exists for the path and either
its stored last-write time equals the file's or its stored checksum equals the
freshly computed one. -/
def shouldSkip (track? : Option TrackRow) (fileTime : Nat)
    (fileChecksum : List Nat) : Bool :=
  track?.any (fun t => t.lastWriteTime == fileTime)
    || track?.any (fun t => t.checksum == fileChecksum)

/-- Modelled from the spec (§4.3), for comparison with `shouldSkip`: the
spec's change detector additionally requires the record's `scanVersion` to be
current for either skip; `scanVersionCurrent` stands for that check. -/
def shouldSkipSpec (track? : Option TrackRow) (fileTime : Nat)
    (fileChecksum : List Nat) (scanVersionCurrent : Bool) : Bool :=
  track?.any (fun t => t.lastWriteTime == fileTime && scanVersionCurrent)
    || track?.any (fun t => t.checksum == fileChecksum && scanVersionCurrent)

/-- Source `Database::processAudioFile` (lines 54–227), step by step:

1. look up the Track by path; return unchanged if the last-write time
   matches (lines 65–70);
2. compute the checksum; return unchanged if it matches (lines 72–80);
3. parse the metadata (line 85); probe the media streams; return unchanged
   if there is no audio stream (lines 98–102);
4. if the probed duration is zero, remove the existing Track row if any
   (lines 103–110) — note the source does **not** return here and falls
   through to the resolution/creation code below;
5. resolve artist, release and genres (lines 123–172);
6. if no Track row existed, `Track::create` plus the setters appends a new
   row (lines 176–219); otherwise the setters update the row in place —
   except that when step 4 removed the row, the Wt::Dbo pointer now holds a
   transient object, so the setter calls have no store effect and the commit
   leaves the row deleted. -/
def processAudioFile (f : AudioFileInfo) (s : Store) : ProcessOutcome :=
  let track? := getTrackByPath s f.path
  if track?.any (fun t => t.lastWriteTime == f.lastWriteTime) then
    { store := s, computedChecksum := false, parsed := false }
  else if track?.any (fun t => t.checksum == f.checksum) then
    { store := s, computedChecksum := true, parsed := false }
  else if f.audioStreamCount == 0 then
    { store := s, computedChecksum := true, parsed := true }
  else
    let s0 := if f.durationTotalSeconds == 0 && track?.isSome then
                removeTrack s f.path
              else s
    let rArtist := resolveArtist s0 f.items
    let rRelease := resolveRelease rArtist.1 f.items
    let rGenres := resolveGenres rRelease.1 f.items
    match track? with
    | none =>
      { store := { rGenres.1 with
          tracks := rGenres.1.tracks ++ [mkNewTrack f rArtist.2 rRelease.2 rGenres.2] }
        computedChecksum := true, parsed := true }
    | some old =>
      if f.durationTotalSeconds == 0 then
        -- the row was removed in step 4; the setters act on a transient
        -- object and do not restore it
        { store := rGenres.1, computedChecksum := true, parsed := true }
      else
        { store := updateTrack rGenres.1 f.path
            (mkUpdatedTrack f old rArtist.2 rRelease.2 rGenres.2)
          computedChecksum := true, parsed := true }

/-- The filesystem predicates `removeMissingAudioFiles` consults:
`boost::filesystem::exists` and `boost::filesystem::is_regular`. -/
structure Filesystem where
  pathExists : String → Bool
  isRegular : String → Bool

/-- Source `Database::removeMissingAudioFiles` (lines 262–286): inside a single
transaction, every Track row whose path fails the exists-and-is-regular check
is removed; the rest are untouched. -/
def removeMissingAudioFiles (fs : Filesystem) (s : Store) : Store :=
  { s with tracks := s.tracks.filter (fun t => !(!fs.pathExists t.path || !fs.isRegular t.path)) }

end LmsScan


namespace LmsMigration

/-- The migration-visible session state: the singleton `VersionInfo.version`,
the `ScanSettings` singleton (its `scanVersion` counter and audio file
extension list), the sequence of SQL statements executed so far (the SQL text
is opaque data to the migration logic), and the SQL engine itself, modelled by
which statements raise an exception when executed. -/
structure Session where
  version : Nat
  scanVersion : Nat
  audioFileExtensions : List String
  executed : List String
  failingSql : String → Bool

/-- Source `session.getDboSession().execute(q)`: raises (carrying the statement) when
the engine fails on `q`, otherwise records the statement as executed. -/
def executeSql (q : String) (s : Session) : Except String Session :=
  if s.failingSql q then Except.error q
  else Except.ok { s with executed := s.executed ++ [q] }

/-- Source `ScanSettings::get(session).modify()->incScanVersion()`. -/
def incScanVersion (s : Session) : Session :=
  { s with scanVersion := s.scanVersion + 1 }

/-- Source `ScanSettings::get(session).modify()->addAudioFileExtension(ext)`. -/
def addAudioFileExtension (ext : String) (s : Session) : Session :=
  { s with audioFileExtensions := s.audioFileExtensions ++ [ext] }

/-- How `doDbMigration` can fail: an exception escaping a migration step
(carrying the failing SQL statement), or the two fatal dispatch errors of
line 415 — `databaseOutdated` is the "Outdated database, please rebuild it"
message, `serverBinaryOutdated` the "Server binary outdated, please upgrade
it" one. -/
inductive MigrationError where
  | stepFailed (sql : String)
  | databaseOutdated
  | serverBinaryOutdated
deriving DecidableEq, Repr

/-- Modelled from the spec: the compiled-in target schema version
`LMS_DATABASE_VERSION` (defined in `Migration.hpp`, which is not among the
given sources).  Per §4.1 of the spec, steps are keyed by consecutive integers
and always appended at the end; the last registered step migrates version 31,
so the target is 32. -/
def LMS_DATABASE_VERSION : Nat := 32

/-- The version dispatch of `doDbMigration` (lines 106–416): for each version
with a registered step, the step body (its SQL statements — treated as opaque
strings, with the C++-computed default values inlined — and its
`ScanSettings` mutations), and `none` when no step is registered.  Dynamic
SQL fragments (`std::to_string` of compiled-in enum defaults) are inlined as
their literal values; long `R"(...)"` SQL bodies are carried as single-line
strings. -/
def migrationDispatch (v : Nat) (s : Session) : Option (Except String Session) :=
  if v == 5 then
    some (executeSql "DELETE FROM auth_token" s)
  else if v == 6 then
    some (Except.ok (incScanVersion s))
  else if v == 7 then
    some (do
      let s ← executeSql "DROP TABLE similarity_settings" s
      let s ← executeSql "DROP TABLE similarity_settings_feature" s
      executeSql "ALTER TABLE scan_settings ADD similarity_engine_type INTEGER NOT NULL DEFAULT(0)" s)
  else if v == 8 then
    some (Except.ok (incScanVersion s))
  else if v == 9 then
    some (executeSql "CREATE TABLE IF NOT EXISTS track_bookmark (id integer primary key autoincrement, version integer not null, offset integer, comment text not null, track_id bigint, user_id bigint)" s)
  else if v == 10 then
    some (Except.ok (addAudioFileExtension ".alac" (addAudioFileExtension ".m4b" s)))
  else if v == 11 then
    some (Except.ok (incScanVersion s))
  else if v == 12 then
    some (Except.ok (incScanVersion s))
  else if v == 13 then
    some (Except.ok (incScanVersion s))
  else if v == 14 then
    some (Except.ok (incScanVersion s))
  else if v == 15 then
    some (executeSql "ALTER TABLE user ADD ui_theme INTEGER NOT NULL DEFAULT(0)" s)
  else if v == 16 then
    some (do
      let s ← executeSql "ALTER TABLE track ADD total_disc INTEGER NOT NULL DEFAULT(0)" s
      let s ← executeSql "ALTER TABLE track ADD total_track INTEGER NOT NULL DEFAULT(0)" s
      Except.ok (incScanVersion s))
  else if v == 17 then
    some (do
      let s ← executeSql "CREATE TABLE release_backup (id integer primary key autoincrement, version integer not null, name text not null, mbid text not null)" s
      let s ← executeSql "INSERT INTO release_backup SELECT id,version,name,mbid FROM release" s
      let s ← executeSql "DROP TABLE release" s
      let s ← executeSql "ALTER TABLE release_backup RENAME TO release" s
      Except.ok (incScanVersion s))
  else if v == 18 then
    some (executeSql "CREATE TABLE IF NOT EXISTS subsonic_settings (id integer primary key autoincrement, version integer not null, api_enabled boolean not null, artist_list_mode integer not null)" s)
  else if v == 19 then
    some (do
      let s ← executeSql "CREATE TABLE user_backup (id integer primary key autoincrement, version integer not null, type integer not null, login_name text not null, password_salt text not null, password_hash text not null, last_login text, subsonic_transcode_enable boolean not null, subsonic_transcode_format integer not null, subsonic_transcode_bitrate integer not null, subsonic_artist_list_mode integer not null, ui_theme integer not null, cur_playing_track_pos integer not null, repeat_all boolean not null, radio boolean not null)" s
      let s ← executeSql "INSERT INTO user_backup SELECT id, version, type, login_name, password_salt, password_hash, last_login, 0, 0, 128, 0, ui_theme, cur_playing_track_pos, repeat_all, radio FROM user" s
      let s ← executeSql "DROP TABLE user" s
      executeSql "ALTER TABLE user_backup RENAME TO user" s)
  else if v == 20 then
    some (executeSql "DROP TABLE subsonic_settings" s)
  else if v == 21 then
    some (do
      let s ← executeSql "ALTER TABLE track ADD track_replay_gain REAL" s
      let s ← executeSql "ALTER TABLE track ADD release_replay_gain REAL" s
      Except.ok (incScanVersion s))
  else if v == 22 then
    some (do
      let s ← executeSql "ALTER TABLE track ADD disc_subtitle TEXT NOT NULL DEFAULT ''" s
      Except.ok (incScanVersion s))
  else if v == 23 then
    some (Except.ok (incScanVersion s))
  else if v == 24 then
    some (executeSql "ALTER TABLE user ADD auth_mode INTEGER NOT NULL DEFAULT(0)" s)
  else if v == 25 then
    some (Except.ok (incScanVersion s))
  else if v == 26 then
    some (Except.ok (incScanVersion s))
  else if v == 27 then
    some (Except.ok (incScanVersion s))
  else if v == 28 then
    some (do
      let s ← executeSql "CREATE TABLE user_backup (id integer primary key autoincrement, version integer not null, type integer not null, login_name text not null, password_salt text not null, password_hash text not null, last_login text, subsonic_transcode_enable boolean not null, subsonic_transcode_format integer not null, subsonic_transcode_bitrate integer not null, subsonic_artist_list_mode integer not null, ui_theme integer not null, cur_playing_track_pos integer not null, repeat_all boolean not null, radio boolean not null)" s
      let s ← executeSql "INSERT INTO user_backup SELECT id, version, type, login_name, password_salt, password_hash, last_login, subsonic_transcode_enable, subsonic_transcode_format, subsonic_transcode_bitrate, subsonic_artist_list_mode, ui_theme, cur_playing_track_pos, repeat_all, radio FROM user" s
      let s ← executeSql "DROP TABLE user" s
      executeSql "ALTER TABLE user_backup RENAME TO user" s)
  else if v == 29 then
    some (do
      let s ← executeSql "ALTER TABLE tracklist_entry ADD date_time TEXT" s
      let s ← executeSql "ALTER TABLE user ADD listenbrainz_token TEXT" s
      let s ← executeSql "ALTER TABLE user ADD scrobbler INTEGER NOT NULL DEFAULT(0)" s
      let s ← executeSql "ALTER TABLE track ADD recording_mbid TEXT" s
      let s ← executeSql "DELETE from tracklist WHERE name = ?" s -- bound to the played-tracks list name
      Except.ok (incScanVersion s))
  else if v == 30 then
    some (do
      let s ← executeSql "CREATE TABLE track_backup (id integer primary key autoincrement, version integer not null, scan_version integer not null, track_number integer not null, disc_number integer not null, name text not null, duration integer, date integer text, original_date integer text, file_path text not null, file_last_write text, file_added text, has_cover boolean not null, mbid text not null, copyright text not null, copyright_url text not null, release_id bigint, total_disc INTEGER NOT NULL DEFAULT(0), total_track INTEGER NOT NULL DEFAULT(0), track_replay_gain REAL, release_replay_gain REAL, disc_subtitle TEXT NOT NULL DEFAULT '', recording_mbid TEXT)" s
      let s ← executeSql "INSERT INTO track_backup SELECT id, version, scan_version, track_number, disc_number, name, duration, \"1900-01-01\", \"1900-01-01\", file_path, file_last_write, file_added, has_cover, mbid, copyright, copyright_url, release_id, total_disc, total_track, track_replay_gain, release_replay_gain, disc_subtitle, recording_mbid FROM track" s
      let s ← executeSql "DROP TABLE track" s
      let s ← executeSql "ALTER TABLE track_backup RENAME TO track" s
      Except.ok (incScanVersion s))
  else if v == 31 then
    some (do
      let s ← executeSql "DROP TABLE user_artist_starred" s
      let s ← executeSql "DROP TABLE user_release_starred" s
      let s ← executeSql "DROP TABLE user_track_starred" s
      let s ← executeSql "CREATE TABLE IF NOT EXISTS starred_artist (id integer primary key autoincrement, version integer not null, scrobbler integer not null, date_time text, artist_id bigint, user_id bigint)" s
      let s ← executeSql "CREATE TABLE IF NOT EXISTS starred_release (id integer primary key autoincrement, version integer not null, scrobbler integer not null, date_time text, release_id bigint, user_id bigint)" s
      let s ← executeSql "CREATE TABLE IF NOT EXISTS starred_track (id integer primary key autoincrement, version integer not null, scrobbler integer not null, date_time text, track_id bigint, user_id bigint)" s
      executeSql "CREATE TABLE IF NOT EXISTS listen (id integer primary key autoincrement, version integer not null, date_time text, scrobbler integer not null, scrobbling_state integer not null, track_id bigint, user_id bigint)" s)
  else none

/-- Outside versions 5 through 31, no migration step is registered. -/
theorem migrationDispatch_none (v : Nat) (s : Session)
    (hv : ¬ (5 ≤ v ∧ v ≤ 31)) : migrationDispatch v s = none := by
  unfold migrationDispatch
  repeat' rw [if_neg]
  all_goals simp only [beq_iff_eq]
  all_goals omega

/-- A registered step exists only for versions 5 through 31. -/
theorem migrationDispatch_bounds {v : Nat} {s : Session} {r : Except String Session}
    (h : migrationDispatch v s = some r) : 5 ≤ v ∧ v ≤ 31 := by
  by_contra hc
  rw [migrationDispatch_none v s hc] at h
  exact Option.noConfusion h

/-- Source `Database::Migration::doDbMigration` (lines 76–420).  Each `while(1)`
iteration opens a unique transaction; the committed store after an iteration
is: unchanged when the version already equals the target (return) or when an
exception escapes (destructor rollback, error propagates), and the step's
effects together with the `setVersion(++version)` write otherwise.  Returns
the committed session plus the escaped exception, if any. -/
def doDbMigration (s : Session) : Session × Option MigrationError :=
  if s.version = LMS_DATABASE_VERSION then (s, none)
  else
    match h : migrationDispatch s.version s with
    | some (Except.ok s') => doDbMigration { s' with version := s.version + 1 }
    | some (Except.error q) => (s, some (MigrationError.stepFailed q))
    | none =>
      (s, some (if LMS_DATABASE_VERSION > s.version then
                  MigrationError.databaseOutdated
                else MigrationError.serverBinaryOutdated))
termination_by LMS_DATABASE_VERSION - s.version
decreasing_by
  have hb := migrationDispatch_bounds h
  simp only [LMS_DATABASE_VERSION] at *
  omega

/-! ### Unfolding lemmas for the migration loop -/

/-- Terminal iteration: at the target version the loop commits nothing and
returns. -/
theorem doDbMigration_done (s : Session) (he : s.version = LMS_DATABASE_VERSION) :
    doDbMigration s = (s, none) := by
  rw [doDbMigration, if_pos he]

/-- Failing iteration: when the dispatched step raises, the whole run returns
the session exactly as it was at the start of the iteration (the unique
transaction's rollback), with the escaped error. -/
theorem doDbMigration_fail (s : Session) (q : String)
    (hne : s.version ≠ LMS_DATABASE_VERSION)
    (hd : migrationDispatch s.version s = some (Except.error q)) :
    doDbMigration s = (s, some (MigrationError.stepFailed q)) := by
  rw [doDbMigration]
  rw [if_neg hne]
  split
  · rename_i s' heq
    rw [hd] at heq
    cases heq
  · rename_i q' heq
    rw [hd] at heq
    cases heq
    rfl
  · rename_i heq
    rw [hd] at heq
    cases heq

/-- Successful iteration: the step's whole effect and the `setVersion(version
+ 1)` write are committed together, and the loop continues from that state. -/
theorem doDbMigration_step (s s' : Session)
    (hne : s.version ≠ LMS_DATABASE_VERSION)
    (hd : migrationDispatch s.version s = some (Except.ok s')) :
    doDbMigration s = doDbMigration { s' with version := s.version + 1 } := by
  rw [doDbMigration]
  rw [if_neg hne]
  split
  · rename_i s'' heq
    rw [hd] at heq
    cases heq
    rfl
  · rename_i q' heq
    rw [hd] at heq
    cases heq
  · rename_i heq
    rw [hd] at heq
    cases heq

/-- Unknown-version iteration: with no registered step and not at the target,
the run returns the unchanged session and the fatal dispatch error. -/
theorem doDbMigration_unknown (s : Session)
    (hne : s.version ≠ LMS_DATABASE_VERSION)
    (hd : migrationDispatch s.version s = none) :
    doDbMigration s =
      (s, some (if LMS_DATABASE_VERSION > s.version then
                  MigrationError.databaseOutdated
                else MigrationError.serverBinaryOutdated)) := by
  rw [doDbMigration]
  rw [if_neg hne]
  split
  · rename_i s' heq
    rw [hd] at heq
    cases heq
  · rename_i q' heq
    rw [hd] at heq
    cases heq
  · rfl

/-- On a non-failing SQL engine every registered step succeeds, and a step
never touches the engine itself. -/
theorem migrationDispatch_ok (v : Nat) (s : Session) (h5 : 5 ≤ v) (h31 : v ≤ 31)
    (hsql : ∀ q, s.failingSql q = false) :
    ∃ s', migrationDispatch v s = some (Except.ok s') ∧
      s'.failingSql = s.failingSql := by
  interval_cases v <;>
    · simp only [migrationDispatch, executeSql, hsql, bind, Except.bind, if_false,
        Bool.false_eq_true, reduceIte]
      exact ⟨_, rfl, rfl⟩

/-! ### Claim theorems: migration engine -/

/-- C3.  Starting from any schema version in the registered range (5–31,
the versions with a dispatched step, and the target itself), on an SQL engine
that raises no exception, `doDbMigration` terminates (it is a total function
of this model, defined by well-founded recursion on the distance to the
target) and returns without error with the store's version equal to the
compiled-in target `LMS_DATABASE_VERSION`. -/
theorem doDbMigration_reaches_target (s : Session)
    (h5 : 5 ≤ s.version) (h32 : s.version ≤ LMS_DATABASE_VERSION)
    (hsql : ∀ q, s.failingSql q = false) :
    (doDbMigration s).2 = none ∧
    (doDbMigration s).1.version = LMS_DATABASE_VERSION := by
  suffices H : ∀ n (s : Session), LMS_DATABASE_VERSION - s.version = n →
      5 ≤ s.version → s.version ≤ LMS_DATABASE_VERSION →
      (∀ q, s.failingSql q = false) →
      (doDbMigration s).2 = none ∧
      (doDbMigration s).1.version = LMS_DATABASE_VERSION from
    H _ s rfl h5 h32 hsql
  intro n
  induction n using Nat.strong_induction_on with
  | _ n ih =>
    intro s hn h5 h32 hsql
    by_cases he : s.version = LMS_DATABASE_VERSION
    · rw [doDbMigration_done s he]
      exact ⟨rfl, he⟩
    · have h32' : s.version ≤ 32 := by
        simpa only [LMS_DATABASE_VERSION] using h32
      have hne32 : s.version ≠ 32 := by
        simpa only [LMS_DATABASE_VERSION] using he
      have h31 : s.version ≤ 31 := by omega
      obtain ⟨s', hd, hfs⟩ := migrationDispatch_ok s.version s h5 h31 hsql
      rw [doDbMigration_step s s' he hd]
      refine ih (LMS_DATABASE_VERSION - (s.version + 1)) ?_
        { s' with version := s.version + 1 } rfl
        (by show 5 ≤ s.version + 1; omega) ?_ ?_
      · simp only [LMS_DATABASE_VERSION] at hn ⊢
        omega
      · show s.version + 1 ≤ LMS_DATABASE_VERSION
        simp only [LMS_DATABASE_VERSION]
        omega
      · intro q
        show s'.failingSql q = false
        rw [hfs]
        exact hsql q

/-- C3 witness: a store at version 5 on a non-failing engine. -/
theorem doDbMigration_reaches_target_witness :
    (let s : Session := { version := 5, scanVersion := 0, audioFileExtensions := [],
                          executed := [], failingSql := fun _ => false }
     (doDbMigration s).2 = none ∧
     (doDbMigration s).1.version = LMS_DATABASE_VERSION) :=
  doDbMigration_reaches_target _ (by decide) (by decide) (fun _ => rfl)

/-- C4.  Step atomicity: if the dispatched step at the current version
raises an exception, the enclosing unique transaction is rolled back entirely
— `doDbMigration` returns the session exactly as it was, version included, so
a subsequent run dispatches the same step again; if the step succeeds, its
changes and the write of `version + 1` are committed together as one
transition of the loop. -/
theorem migration_step_atomicity (s : Session)
    (hne : s.version ≠ LMS_DATABASE_VERSION) :
    (∀ q, migrationDispatch s.version s = some (Except.error q) →
      doDbMigration s = (s, some (MigrationError.stepFailed q))) ∧
    (∀ s', migrationDispatch s.version s = some (Except.ok s') →
      doDbMigration s = doDbMigration { s' with version := s.version + 1 }) :=
  ⟨fun q hd => doDbMigration_fail s q hne hd,
   fun s' hd => doDbMigration_step s s' hne hd⟩

/-- C4 witness: an engine that raises on the version-5 step's `DELETE`;
the run aborts with the version (and everything else) unchanged. -/
theorem migration_step_atomicity_witness :
    (let s : Session := { version := 5, scanVersion := 0, audioFileExtensions := [],
                          executed := [],
                          failingSql := fun q => q == "DELETE FROM auth_token" }
     doDbMigration s = (s, some (MigrationError.stepFailed "DELETE FROM auth_token"))) :=
  (migration_step_atomicity _ (by decide)).1 _ rfl

/-- C5.  For every stored version with no registered migration step that
differs from the target, `doDbMigration` fails fatally with the session —
version included — unchanged, and the error distinguishes the two cases of
line 415: `databaseOutdated` ("please rebuild") when the target exceeds the
stored version, `serverBinaryOutdated` ("please upgrade") otherwise. -/
theorem migration_unknown_version (s : Session)
    (hout : ¬ (5 ≤ s.version ∧ s.version ≤ 31))
    (hne : s.version ≠ LMS_DATABASE_VERSION) :
    doDbMigration s =
      (s, some (if LMS_DATABASE_VERSION > s.version then
                  MigrationError.databaseOutdated
                else MigrationError.serverBinaryOutdated)) :=
  doDbMigration_unknown s hne (migrationDispatch_none s.version s hout)

/-- C5 witness: a version-2 store (older than any registered step) is
reported as an outdated database; a version-40 store (newer than the binary)
is reported as an outdated server binary.  Both leave the session unchanged. -/
theorem migration_unknown_version_witness :
    (let sOld : Session := { version := 2, scanVersion := 0, audioFileExtensions := [],
                             executed := [], failingSql := fun _ => false }
     let sNew : Session := { version := 40, scanVersion := 0, audioFileExtensions := [],
                             executed := [], failingSql := fun _ => false }
     doDbMigration sOld = (sOld, some MigrationError.databaseOutdated) ∧
     doDbMigration sNew = (sNew, some MigrationError.serverBinaryOutdated)) := by
  constructor
  · have h := migration_unknown_version
      { version := 2, scanVersion := 0, audioFileExtensions := [],
        executed := [], failingSql := fun _ => false } (by decide) (by decide)
    simpa [LMS_DATABASE_VERSION] using h
  · have h := migration_unknown_version
      { version := 40, scanVersion := 0, audioFileExtensions := [],
        executed := [], failingSql := fun _ => false } (by decide) (by decide)
    simpa [LMS_DATABASE_VERSION] using h

end LmsMigration

namespace LmsScan

/-! ## Concrete fixtures used by counterexamples and witnesses -/

/-- A metadata parse that found no recognized tag. -/
def noItems : MetaDataItems :=
  { title := none, artist := none, album := none, genres := none,
    trackNumber := none, discNumber := none, duration := none, creationTime := none }

/-- A corrupt file: one nominal audio stream but probed duration zero. -/
def zeroDurationFile : AudioFileInfo :=
  { path := "a.mp3", filename := "a.mp3", lastWriteTime := 1, checksum := [1],
    items := noItems, audioStreamCount := 1, durationTotalSeconds := 0 }

/-- A previously scanned Track row for `"a.mp3"`. -/
def oldTrack : TrackRow :=
  { path := "a.mp3", artistId := 0, releaseId := 0, checksum := [1],
    lastWriteTime := 1, name := "old", genreText := "", genreIds := [],
    trackNumber := 7, discNumber := 2, duration := 100, creationTime := 3 }

/-- A store holding only `oldTrack`. -/
def storeWithOldTrack : Store :=
  { tracks := [oldTrack], artists := [], releases := [], genres := [], nextId := 10 }

/-! ## Basic lemmas about the scan-path operations -/

theorem resolveArtist_tracks (s : Store) (it : MetaDataItems) :
    (resolveArtist s it).1.tracks = s.tracks := by
  unfold resolveArtist artistGetNone createArtist
  cases it.artist <;> dsimp only
  · cases getArtistByName s "" <;> rfl
  · rename_i nm
    cases getArtistByName s nm <;> rfl

theorem resolveRelease_tracks (s : Store) (it : MetaDataItems) :
    (resolveRelease s it).1.tracks = s.tracks := by
  unfold resolveRelease releaseGetNone createRelease
  cases it.album <;> dsimp only
  · cases getReleaseByName s "" <;> rfl
  · rename_i nm
    cases getReleaseByName s nm <;> rfl

theorem genreStep_tracks (acc : Store × List Nat) (g : String) :
    (genreStep acc g).1.tracks = acc.1.tracks := by
  unfold genreStep createGenre
  cases getGenreByName acc.1 g <;> rfl

theorem foldl_genreStep_tracks (gl : List String) :
    ∀ acc : Store × List Nat, (gl.foldl genreStep acc).1.tracks = acc.1.tracks := by
  induction gl with
  | nil => intro acc; rfl
  | cons g tl ih =>
    intro acc
    rw [List.foldl_cons, ih, genreStep_tracks]

theorem resolveGenres_tracks (s : Store) (it : MetaDataItems) :
    (resolveGenres s it).1.tracks = s.tracks := by
  unfold resolveGenres genreGetNone createGenre
  dsimp only
  split
  · split
    · have := foldl_genreStep_tracks (it.genres.getD []) (s, [])
      simpa using this
    · have := foldl_genreStep_tracks (it.genres.getD []) (s, [])
      simpa using this
  · exact foldl_genreStep_tracks (it.genres.getD []) (s, [])

theorem resolveArtist_artists_ne (s : Store) (it : MetaDataItems) :
    ∀ a ∈ s.artists, a ∈ (resolveArtist s it).1.artists := by
  intro a ha
  unfold resolveArtist artistGetNone createArtist
  cases it.artist <;> dsimp only
  · cases getArtistByName s "" <;> simp [ha]
  · rename_i nm
    cases getArtistByName s nm <;> simp [ha]

theorem resolveRelease_artists (s : Store) (it : MetaDataItems) :
    (resolveRelease s it).1.artists = s.artists := by
  unfold resolveRelease releaseGetNone createRelease
  cases it.album <;> dsimp only
  · cases getReleaseByName s "" <;> rfl
  · rename_i nm
    cases getReleaseByName s nm <;> rfl

theorem genreStep_artists (acc : Store × List Nat) (g : String) :
    (genreStep acc g).1.artists = acc.1.artists := by
  unfold genreStep createGenre
  cases getGenreByName acc.1 g <;> rfl

theorem foldl_genreStep_artists (gl : List String) :
    ∀ acc : Store × List Nat, (gl.foldl genreStep acc).1.artists = acc.1.artists := by
  induction gl with
  | nil => intro acc; rfl
  | cons g tl ih =>
    intro acc
    rw [List.foldl_cons, ih, genreStep_artists]

theorem resolveGenres_artists (s : Store) (it : MetaDataItems) :
    (resolveGenres s it).1.artists = s.artists := by
  unfold resolveGenres genreGetNone createGenre
  dsimp only
  split
  · split
    · have := foldl_genreStep_artists (it.genres.getD []) (s, [])
      simpa using this
    · have := foldl_genreStep_artists (it.genres.getD []) (s, [])
      simpa using this
  · exact foldl_genreStep_artists (it.genres.getD []) (s, [])

/-! ## Claim theorems: scan path -/

/-- C1 (code bug).  The spec demands that a zero-duration file produce no
Track row.  The code prints "Skipped ... (duration null!)" and removes an
existing row, but fails to return afterwards (no `return` in the branch at
lines 103–110), falling through to the creation code: evaluated on a
zero-duration file with one audio stream and no pre-existing Track, the store
afterwards **does** contain a Track row for that path. -/
theorem processAudioFile_zeroDuration_creates_track :
    (getTrackByPath (processAudioFile zeroDurationFile emptyStore).store
      zeroDurationFile.path).isSome = true ∧
    zeroDurationFile.durationTotalSeconds = 0 ∧
    getTrackByPath emptyStore zeroDurationFile.path = none := by
  decide

/-- C7 counterexample.  A file with zero audio streams whose path has a
stale Track row: `processAudioFile` returns with the Track row still present,
contradicting the claim that no Track row for that path remains. -/
theorem processAudioFile_noAudioStream_keeps_track :
    (let f : AudioFileInfo :=
      { path := "a.mp3", filename := "a.mp3", lastWriteTime := 2, checksum := [9],
        items := noItems, audioStreamCount := 0, durationTotalSeconds := 100 }
     f.audioStreamCount = 0 ∧
     (getTrackByPath (processAudioFile f storeWithOldTrack).store "a.mp3").isSome = true) := by
  decide

/-- C7 (amended).  For every file found to have zero audio streams,
`processAudioFile` skips the file and leaves the store — in particular any
previously stored Track row for that path — entirely unchanged; no removal
happens. -/
theorem processAudioFile_noAudioStream_store_unchanged
    (f : AudioFileInfo) (s : Store) (h : f.audioStreamCount = 0) :
    (processAudioFile f s).store = s := by
  unfold processAudioFile
  dsimp only
  split
  · rfl
  · split
    · rfl
    · simp [h]

/-- C7 witness. -/
theorem processAudioFile_noAudioStream_store_unchanged_witness :
    (let f : AudioFileInfo :=
      { path := "b.mp3", filename := "b.mp3", lastWriteTime := 2, checksum := [9],
        items := noItems, audioStreamCount := 0, durationTotalSeconds := 100 }
     (processAudioFile f storeWithOldTrack).store = storeWithOldTrack) :=
  processAudioFile_noAudioStream_store_unchanged _ storeWithOldTrack rfl

/-- C2 counterexample.  A Track row whose stored timestamp matches the
file but whose `scanVersion` is stale (spec detector: must process): the code
still skips — it performs no metadata parse and leaves the store unchanged —
because lines 60–80 have no `scanVersion` condition at all. -/
theorem changeDetector_ignores_scanVersion :
    (let f : AudioFileInfo :=
      { path := "a.mp3", filename := "a.mp3", lastWriteTime := 1, checksum := [9],
        items := noItems, audioStreamCount := 1, durationTotalSeconds := 100 }
     (processAudioFile f storeWithOldTrack).parsed = false ∧
     (processAudioFile f storeWithOldTrack).store = storeWithOldTrack ∧
     shouldSkipSpec (getTrackByPath storeWithOldTrack f.path) f.lastWriteTime
       f.checksum false = false) := by
  decide

/-- C2 (amended).  The change detector skips — performs no metadata parse
and no store write — exactly when a Track row exists for the path and either
its stored last-write timestamp equals the file's current timestamp or its
stored checksum equals the freshly computed one; there is no `scanVersion`
condition in this code.  In every other case the file is parsed. -/
theorem changeDetector_skip_characterization (f : AudioFileInfo) (s : Store) :
    ((processAudioFile f s).parsed = false ↔
      shouldSkip (getTrackByPath s f.path) f.lastWriteTime f.checksum = true) ∧
    (shouldSkip (getTrackByPath s f.path) f.lastWriteTime f.checksum = true →
      (processAudioFile f s).store = s) := by
  unfold processAudioFile shouldSkip
  dsimp only
  constructor
  · constructor
    · intro hp
      by_contra hns
      simp only [Bool.or_eq_true, not_or] at hns
      obtain ⟨h1, h2⟩ := hns
      rw [if_neg (by simp [h1]), if_neg (by simp [h2])] at hp
      revert hp
      split
      · simp
      · split
        · simp
        · split <;> simp
    · intro hsk
      rcases Bool.or_eq_true _ _ |>.mp hsk with h1 | h2
      · rw [if_pos (by simp [h1])]
      · by_cases h1 : (getTrackByPath s f.path).any
          (fun t => t.lastWriteTime == f.lastWriteTime) = true
        · rw [if_pos (by simp [h1])]
        · rw [if_neg (by simp [h1]), if_pos (by simp [h2])]
  · intro hsk
    rcases Bool.or_eq_true _ _ |>.mp hsk with h1 | h2
    · rw [if_pos (by simp [h1])]
    · by_cases h1 : (getTrackByPath s f.path).any
        (fun t => t.lastWriteTime == f.lastWriteTime) = true
      · rw [if_pos (by simp [h1])]
      · rw [if_neg (by simp [h1]), if_pos (by simp [h2])]

/-- C10.  For a file whose existing Track row has an equal stored checksum
but a different stored last-write timestamp, `processAudioFile` computes the
checksum, performs no metadata parse, and leaves the store — in particular the
stored timestamp — completely unchanged; consequently a subsequent scan of the
same unchanged file computes the checksum again. -/
theorem checksumMatch_timestampStale_no_write
    (f : AudioFileInfo) (s : Store) (t : TrackRow)
    (ht : getTrackByPath s f.path = some t)
    (hc : t.checksum = f.checksum)
    (hw : t.lastWriteTime ≠ f.lastWriteTime) :
    (processAudioFile f s).store = s ∧
    (processAudioFile f s).computedChecksum = true ∧
    (processAudioFile f s).parsed = false ∧
    (processAudioFile f (processAudioFile f s).store).computedChecksum = true := by
  have hstep : processAudioFile f s =
      { store := s, computedChecksum := true, parsed := false } := by
    unfold processAudioFile
    dsimp only
    rw [if_neg (by simp [ht, hw]), if_pos (by simp [ht, hc])]
  refine ⟨by rw [hstep], by rw [hstep], by rw [hstep], ?_⟩
  rw [hstep]
  dsimp only
  rw [hstep]

/-- C10 witness. -/
theorem checksumMatch_timestampStale_no_write_witness :
    (let f : AudioFileInfo :=
      { path := "a.mp3", filename := "a.mp3", lastWriteTime := 5, checksum := [1],
        items := noItems, audioStreamCount := 1, durationTotalSeconds := 100 }
     (processAudioFile f storeWithOldTrack).store = storeWithOldTrack ∧
     (processAudioFile f storeWithOldTrack).computedChecksum = true ∧
     (processAudioFile f storeWithOldTrack).parsed = false ∧
     (processAudioFile f (processAudioFile f storeWithOldTrack).store).computedChecksum = true) :=
  checksumMatch_timestampStale_no_write _ storeWithOldTrack oldTrack rfl rfl (by decide)

/-- C9.  The orphan reconciler deletes exactly the Track rows whose
backing path fails the exists-and-is-regular filesystem check, keeps every
other Track row verbatim, and touches nothing else in the store.  (It is a
single store transition, mirroring the single enclosing transaction.) -/
theorem removeMissing_characterization (fs : Filesystem) (s : Store) (t : TrackRow) :
    (t ∈ (removeMissingAudioFiles fs s).tracks ↔
      t ∈ s.tracks ∧ fs.pathExists t.path = true ∧ fs.isRegular t.path = true) ∧
    (removeMissingAudioFiles fs s).artists = s.artists ∧
    (removeMissingAudioFiles fs s).releases = s.releases ∧
    (removeMissingAudioFiles fs s).genres = s.genres ∧
    (removeMissingAudioFiles fs s).nextId = s.nextId := by
  refine ⟨?_, rfl, rfl, rfl, rfl⟩
  unfold removeMissingAudioFiles
  dsimp only
  rw [List.mem_filter]
  constructor
  · rintro ⟨hm, hcond⟩
    refine ⟨hm, ?_, ?_⟩ <;>
      · revert hcond
        cases fs.pathExists t.path <;> cases fs.isRegular t.path <;> simp
  · rintro ⟨hm, h1, h2⟩
    exact ⟨hm, by simp [h1, h2]⟩


/-- Searching by path over an in-place update: if the search previously found
`old` and the replacement keeps `old`'s path, the search now finds the
replacement. -/
theorem find?_update_by_path (l : List TrackRow) (p : String) (u old : TrackRow)
    (hf : l.find? (fun t => t.path == p) = some old) (hu : u.path = old.path) :
    (l.map (fun t => if t.path == p then u else t)).find? (fun t => t.path == p)
      = some u := by
  induction l with
  | nil => simp at hf
  | cons a tl ih =>
    by_cases hc : (a.path == p) = true
    · have ha : old = a := by
        rw [List.find?_cons_of_pos tl hc] at hf
        exact (Option.some.inj hf).symm
      have hup : (u.path == p) = true := by
        rw [show u.path = a.path from ha ▸ hu]
        exact hc
      simp only [List.map_cons, if_pos hc]
      exact List.find?_cons_of_pos _ hup
    · have hcn : ¬ ((a.path == p) = true) := hc
      rw [List.find?_cons_of_neg tl hcn] at hf
      simp only [List.map_cons, if_neg hcn]
      rw [show List.find? (fun t => t.path == p)
            (a :: List.map (fun t => if t.path == p then u else t) tl)
          = List.find? (fun t => t.path == p)
            (List.map (fun t => if t.path == p then u else t) tl)
        from List.find?_cons_of_neg _ hcn]
      exact ih hf

/-- C6 counterexample.  Re-processing a changed file whose current
extraction carries no TrackNumber tag: the updated Track row keeps the track
number `7` written by the previous scan, so the resolver does partial-merge,
contrary to the claim that no mutable field retains a previous value when the
corresponding tag is absent. -/
theorem resolver_retains_trackNumber :
    (let f : AudioFileInfo :=
      { path := "a.mp3", filename := "a.mp3", lastWriteTime := 2, checksum := [2],
        items := noItems, audioStreamCount := 1, durationTotalSeconds := 100 }
     f.items.trackNumber = none ∧
     oldTrack.trackNumber = 7 ∧
     (getTrackByPath (processAudioFile f storeWithOldTrack).store "a.mp3").map
       (fun t => t.trackNumber) = some 7) := by
  decide

/-- C6 (amended).  On every re-process of an existing Track (changed
timestamp and checksum, an audio stream, nonzero duration), the resolver
fully overwrites title, checksum and last-write timestamp from the newly
extracted tags, but overwrites track number, disc number and the tag-derived
dates (duration, creation time) only when the corresponding tag is present in
the current extraction — when such a tag is absent, the value from the
previous scan is retained (and this code has no replay-gain field at all). -/
theorem resolver_overwrite_characterization
    (f : AudioFileInfo) (s : Store) (old : TrackRow)
    (ht : getTrackByPath s f.path = some old)
    (hw : old.lastWriteTime ≠ f.lastWriteTime)
    (hc : old.checksum ≠ f.checksum)
    (hs : f.audioStreamCount ≠ 0)
    (hd0 : f.durationTotalSeconds ≠ 0) :
    ∃ t', getTrackByPath (processAudioFile f s).store f.path = some t' ∧
      t'.checksum = f.checksum ∧
      t'.lastWriteTime = f.lastWriteTime ∧
      t'.name = f.items.title.getD f.filename ∧
      t'.trackNumber = f.items.trackNumber.getD old.trackNumber ∧
      t'.discNumber = f.items.discNumber.getD old.discNumber ∧
      t'.duration = f.items.duration.getD old.duration ∧
      t'.creationTime = f.items.creationTime.getD old.creationTime := by
  have h1 : (old.lastWriteTime == f.lastWriteTime) = false := by
    rw [beq_eq_false_iff_ne]; exact hw
  have h2 : (old.checksum == f.checksum) = false := by
    rw [beq_eq_false_iff_ne]; exact hc
  have h3 : (f.audioStreamCount == 0) = false := by
    rw [beq_eq_false_iff_ne]; exact hs
  have h4 : (f.durationTotalSeconds == 0) = false := by
    rw [beq_eq_false_iff_ne]; exact hd0
  unfold processAudioFile
  simp only [ht, Option.any_some, h1, h2, h3, h4, Bool.false_and, Bool.false_eq_true,
    if_false, Option.isSome_some]
  refine ⟨mkUpdatedTrack f old
      (resolveArtist s f.items).2
      (resolveRelease (resolveArtist s f.items).1 f.items).2
      (resolveGenres (resolveRelease (resolveArtist s f.items).1 f.items).1 f.items).2,
    ?_, rfl, rfl, rfl, rfl, rfl, rfl, rfl⟩
  unfold getTrackByPath updateTrack
  dsimp only
  have hchain :
      (resolveGenres (resolveRelease (resolveArtist s f.items).1 f.items).1 f.items).1.tracks
        = s.tracks := by
    rw [resolveGenres_tracks, resolveRelease_tracks, resolveArtist_tracks]
  rw [hchain]
  exact find?_update_by_path s.tracks f.path _ old ht rfl

/-- C2 witness (for the amended statement). -/
theorem changeDetector_skip_characterization_witness :
    (let f : AudioFileInfo :=
      { path := "a.mp3", filename := "a.mp3", lastWriteTime := 1, checksum := [9],
        items := noItems, audioStreamCount := 1, durationTotalSeconds := 100 }
     ((processAudioFile f storeWithOldTrack).parsed = false ↔
       shouldSkip (getTrackByPath storeWithOldTrack f.path) f.lastWriteTime f.checksum = true) ∧
     (shouldSkip (getTrackByPath storeWithOldTrack f.path) f.lastWriteTime f.checksum = true →
       (processAudioFile f storeWithOldTrack).store = storeWithOldTrack)) :=
  changeDetector_skip_characterization _ storeWithOldTrack

/-- C9 witness. -/
theorem removeMissing_characterization_witness :
    (let fs : Filesystem := { pathExists := fun _ => false, isRegular := fun _ => false }
     (oldTrack ∈ (removeMissingAudioFiles fs storeWithOldTrack).tracks ↔
       oldTrack ∈ storeWithOldTrack.tracks ∧ fs.pathExists oldTrack.path = true ∧
         fs.isRegular oldTrack.path = true) ∧
     (removeMissingAudioFiles fs storeWithOldTrack).artists = storeWithOldTrack.artists ∧
     (removeMissingAudioFiles fs storeWithOldTrack).releases = storeWithOldTrack.releases ∧
     (removeMissingAudioFiles fs storeWithOldTrack).genres = storeWithOldTrack.genres ∧
     (removeMissingAudioFiles fs storeWithOldTrack).nextId = storeWithOldTrack.nextId) :=
  removeMissing_characterization _ storeWithOldTrack oldTrack

/-- C6 witness (for the amended statement). -/
theorem resolver_overwrite_characterization_witness :
    (let f : AudioFileInfo :=
      { path := "a.mp3", filename := "a.mp3", lastWriteTime := 2, checksum := [2],
        items := noItems, audioStreamCount := 1, durationTotalSeconds := 100 }
     ∃ t', getTrackByPath (processAudioFile f storeWithOldTrack).store f.path = some t' ∧
      t'.checksum = f.checksum ∧
      t'.lastWriteTime = f.lastWriteTime ∧
      t'.name = f.items.title.getD f.filename ∧
      t'.trackNumber = f.items.trackNumber.getD oldTrack.trackNumber ∧
      t'.discNumber = f.items.discNumber.getD oldTrack.discNumber ∧
      t'.duration = f.items.duration.getD oldTrack.duration ∧
      t'.creationTime = f.items.creationTime.getD oldTrack.creationTime) :=
  resolver_overwrite_characterization _ storeWithOldTrack oldTrack rfl
    (by decide) (by decide) (by decide) (by decide)

/-! ## Artist deduplication (C8) -/

/-- In an artist table with pairwise-distinct names, a member named `nm` is
both the whole filter result and the `find?` result for that name. -/
theorem artists_unique_name_lookup (l : List ArtistRow) (nm : String) (a : ArtistRow)
    (hpw : l.Pairwise (fun x y => x.name ≠ y.name)) (ha : a ∈ l) (hnm : a.name = nm) :
    l.filter (fun b => b.name == nm) = [a] ∧
    l.find? (fun b => b.name == nm) = some a := by
  induction l with
  | nil => cases ha
  | cons x tl ih =>
    obtain ⟨hx, htl⟩ := List.pairwise_cons.mp hpw
    rcases List.mem_cons.mp ha with rfl | hmem
    · have hxnm : (a.name == nm) = true := by simp [hnm]
      have htail : tl.filter (fun b => b.name == nm) = [] := by
        rw [List.filter_eq_nil_iff]
        intro b hb hbnm
        exact hx b hb (by
          have hb' : b.name = nm := by simpa using hbnm
          rw [hnm, hb'])
      constructor
      · rw [List.filter_cons, hxnm, if_pos rfl, htail]
      · rw [List.find?_cons, hxnm]
    · have hxnm : (x.name == nm) = false := by
        rw [beq_eq_false_iff_ne]
        intro hxa
        exact hx a hmem (by rw [hxa, hnm])
      obtain ⟨hfil, hfind⟩ := ih htl hmem
      constructor
      · rw [List.filter_cons, hxnm]
        simp only [Bool.false_eq_true, if_false]
        exact hfil
      · rw [List.find?_cons, hxnm]
        exact hfind

/-- What artist resolution does when the Artist tag is present and the artist
table has pairwise-distinct names: it yields the id of a row named `nm` that
is in the resulting table, the resulting table still has pairwise-distinct
names, and exactly one of its rows is named `nm`. -/
theorem resolveArtist_spec (s : Store) (it : MetaDataItems) (nm : String)
    (hit : it.artist = some nm)
    (hpw : s.artists.Pairwise (fun x y => x.name ≠ y.name)) :
    ∃ a : ArtistRow, a.name = nm ∧
      (resolveArtist s it).2 = a.id ∧
      a ∈ (resolveArtist s it).1.artists ∧
      (resolveArtist s it).1.artists.Pairwise (fun x y => x.name ≠ y.name) ∧
      (resolveArtist s it).1.artists.filter (fun b => b.name == nm) = [a] := by
  cases hfind : getArtistByName s nm with
  | some a =>
    have hres : resolveArtist s it = (s, a.id) := by
      simp only [resolveArtist, hit, hfind]
    have hfind' : s.artists.find? (fun b => b.name == nm) = some a := hfind
    have hmem : a ∈ s.artists := List.mem_of_find?_eq_some hfind'
    have hpa := List.find?_some hfind'
    have hnm : a.name = nm := by simpa using hpa
    rw [hres]
    exact ⟨a, hnm, rfl, hmem, hpw,
      (artists_unique_name_lookup s.artists nm a hpw hmem hnm).1⟩
  | none =>
    have hres : resolveArtist s it = createArtist s nm := by
      simp only [resolveArtist, hit, hfind]
    have hfind' : s.artists.find? (fun b => b.name == nm) = none := hfind
    have hnone : ∀ b ∈ s.artists, ¬ ((b.name == nm) = true) :=
      List.find?_eq_none.mp hfind'
    rw [hres]
    refine ⟨{ id := s.nextId, name := nm }, rfl, rfl, ?_, ?_, ?_⟩
    · unfold createArtist
      simp
    · unfold createArtist
      dsimp only
      rw [List.pairwise_append]
      refine ⟨hpw, List.pairwise_singleton _ _, ?_⟩
      intro x hx y hy
      rw [List.mem_singleton.mp hy]
      intro hxy
      exact hnone x hx (by simp [hxy])
    · unfold createArtist
      dsimp only
      rw [List.filter_append]
      have h1 : s.artists.filter (fun b => b.name == nm) = [] := by
        rw [List.filter_eq_nil_iff]
        exact hnone
      rw [h1]
      simp

/-- The store `processAudioFile` commits on the creation path (no existing
Track row, at least one audio stream): the three resolutions run in order and
the new Track row — carrying the resolved artist id — is appended. -/
theorem processAudioFile_create (f : AudioFileInfo) (s : Store)
    (ht : getTrackByPath s f.path = none) (hs : f.audioStreamCount ≠ 0) :
    (processAudioFile f s).store =
      { (resolveGenres (resolveRelease (resolveArtist s f.items).1 f.items).1 f.items).1 with
        tracks :=
          (resolveGenres (resolveRelease (resolveArtist s f.items).1 f.items).1 f.items).1.tracks
            ++ [mkNewTrack f (resolveArtist s f.items).2
                  (resolveRelease (resolveArtist s f.items).1 f.items).2
                  (resolveGenres (resolveRelease (resolveArtist s f.items).1 f.items).1 f.items).2] } := by
  have h3 : (f.audioStreamCount == 0) = false := by
    rw [beq_eq_false_iff_ne]; exact hs
  unfold processAudioFile
  simp [ht, h3]

/-- C8.  Processing two fresh files that carry the identical artist-tag
text `nm` (both actually audio, distinct paths, artist names pairwise
distinct in the store beforehand): afterwards, exactly one Artist row named
`nm` exists, and both resulting Track rows reference its id — the resolver
looks the Artist up by name and creates it only if absent, so no duplicate
Artist row for the name is created. -/
theorem artist_dedup
    (f1 f2 : AudioFileInfo) (s : Store) (nm : String)
    (h1 : f1.items.artist = some nm) (h2 : f2.items.artist = some nm)
    (hp : f1.path ≠ f2.path)
    (ht1 : getTrackByPath s f1.path = none) (ht2 : getTrackByPath s f2.path = none)
    (hs1 : f1.audioStreamCount ≠ 0) (hs2 : f2.audioStreamCount ≠ 0)
    (hpw : s.artists.Pairwise (fun x y => x.name ≠ y.name)) :
    ∃ a : ArtistRow, a.name = nm ∧
      (processAudioFile f2 (processAudioFile f1 s).store).store.artists.filter
        (fun b => b.name == nm) = [a] ∧
      (getTrackByPath (processAudioFile f2 (processAudioFile f1 s).store).store f1.path).map
        (fun t => t.artistId) = some a.id ∧
      (getTrackByPath (processAudioFile f2 (processAudioFile f1 s).store).store f2.path).map
        (fun t => t.artistId) = some a.id := by
  obtain ⟨a, hanm, haid, hamem, hapw, hafil⟩ := resolveArtist_spec s f1.items nm h1 hpw
  have hS1 := processAudioFile_create f1 s ht1 hs1
  have hS1tracks : (processAudioFile f1 s).store.tracks =
      s.tracks ++ [mkNewTrack f1 (resolveArtist s f1.items).2
        (resolveRelease (resolveArtist s f1.items).1 f1.items).2
        (resolveGenres (resolveRelease (resolveArtist s f1.items).1 f1.items).1 f1.items).2] := by
    rw [hS1]
    dsimp only
    rw [resolveGenres_tracks, resolveRelease_tracks, resolveArtist_tracks]
  have hS1artists : (processAudioFile f1 s).store.artists =
      (resolveArtist s f1.items).1.artists := by
    rw [hS1]
    dsimp only
    rw [resolveGenres_artists, resolveRelease_artists]
  -- the second file's artist lookup finds the very row the first file used
  have hfind2 : getArtistByName (processAudioFile f1 s).store nm = some a := by
    unfold getArtistByName
    rw [hS1artists]
    exact (artists_unique_name_lookup _ nm a hapw hamem hanm).2
  have hres2 : resolveArtist (processAudioFile f1 s).store f2.items =
      ((processAudioFile f1 s).store, a.id) := by
    simp only [resolveArtist, h2, hfind2]
  -- no Track row for the second path exists yet after the first file
  have hT1path : ((mkNewTrack f1 (resolveArtist s f1.items).2
      (resolveRelease (resolveArtist s f1.items).1 f1.items).2
      (resolveGenres (resolveRelease (resolveArtist s f1.items).1 f1.items).1 f1.items).2).path
        == f2.path) = false := by
    unfold mkNewTrack
    dsimp only
    rw [beq_eq_false_iff_ne]
    exact hp
  have ht2' : getTrackByPath (processAudioFile f1 s).store f2.path = none := by
    unfold getTrackByPath
    rw [hS1tracks, List.find?_append,
      show s.tracks.find? (fun t => t.path == f2.path) = none from ht2]
    rw [List.find?_cons, hT1path]
    rfl
  have hS2 := processAudioFile_create f2 (processAudioFile f1 s).store ht2' hs2
  have hS2tracks : (processAudioFile f2 (processAudioFile f1 s).store).store.tracks =
      (processAudioFile f1 s).store.tracks ++ [mkNewTrack f2 a.id
        (resolveRelease (processAudioFile f1 s).store f2.items).2
        (resolveGenres (resolveRelease (processAudioFile f1 s).store f2.items).1 f2.items).2] := by
    rw [hS2]
    dsimp only
    rw [hres2]
    dsimp only
    rw [resolveGenres_tracks, resolveRelease_tracks]
  have hS2artists : (processAudioFile f2 (processAudioFile f1 s).store).store.artists =
      (processAudioFile f1 s).store.artists := by
    rw [hS2]
    dsimp only
    rw [hres2]
    dsimp only
    rw [resolveGenres_artists, resolveRelease_artists]
  refine ⟨a, hanm, ?_, ?_, ?_⟩
  · rw [hS2artists, hS1artists]
    exact hafil
  · unfold getTrackByPath
    rw [hS2tracks, List.find?_append, hS1tracks, List.find?_append,
      show s.tracks.find? (fun t => t.path == f1.path) = none from ht1]
    rw [List.find?_cons,
      show ((mkNewTrack f1 (resolveArtist s f1.items).2
        (resolveRelease (resolveArtist s f1.items).1 f1.items).2
        (resolveGenres (resolveRelease (resolveArtist s f1.items).1 f1.items).1 f1.items).2).path
          == f1.path) = true from beq_self_eq_true f1.path]
    simp [mkNewTrack, haid]
  · unfold getTrackByPath
    rw [hS2tracks, List.find?_append,
      show (processAudioFile f1 s).store.tracks.find? (fun t => t.path == f2.path) = none
        from ht2']
    rw [List.find?_cons,
      show ((mkNewTrack f2 a.id
        (resolveRelease (processAudioFile f1 s).store f2.items).2
        (resolveGenres (resolveRelease (processAudioFile f1 s).store f2.items).1 f2.items).2).path
          == f2.path) = true from beq_self_eq_true f2.path]
    rfl

/-- C8 witness. -/
theorem artist_dedup_witness :
    (let f1 : AudioFileInfo :=
      { path := "x.mp3", filename := "x.mp3", lastWriteTime := 1, checksum := [1],
        items := { noItems with artist := some "Same Artist" },
        audioStreamCount := 1, durationTotalSeconds := 100 }
     let f2 : AudioFileInfo :=
      { path := "y.mp3", filename := "y.mp3", lastWriteTime := 1, checksum := [2],
        items := { noItems with artist := some "Same Artist" },
        audioStreamCount := 1, durationTotalSeconds := 100 }
     ∃ a : ArtistRow, a.name = "Same Artist" ∧
      (processAudioFile f2 (processAudioFile f1 emptyStore).store).store.artists.filter
        (fun b => b.name == "Same Artist") = [a] ∧
      (getTrackByPath (processAudioFile f2 (processAudioFile f1 emptyStore).store).store
        f1.path).map (fun t => t.artistId) = some a.id ∧
      (getTrackByPath (processAudioFile f2 (processAudioFile f1 emptyStore).store).store
        f2.path).map (fun t => t.artistId) = some a.id) :=
  artist_dedup _ _ emptyStore "Same Artist" rfl rfl (by decide) rfl rfl
    (by decide) (by decide) List.Pairwise.nil

end LmsScan
